import Mathlib

/-!
Verification development for the apple_laid_g_server gateway.

The definitions below are a shallow embedding of the Python sources:
  * `src/config.py`            — model registry lookup (`get_llm_config`)
  * `src/services/credit_service.py` — the credit ledger operations
  * `src/services/llm_router.py`     — cost lookup, adapter cache, request routing
  * `src/llms/llm_factory.py`        — provider resolution (`create_llm`)
  * `src/llms/base_llm.py` and the per-provider adapters
    (`llm_openai.py`, `llm_anthropic.py`, `llm_grok.py`, `llm_deepseek.py`,
     `llm_gemini.py`) — message translation, image attachment, response parsing,
    and the adapter-boundary failure policy
  * `src/app/api.py`           — the gateway HTTP handlers

Monetary amounts (credits, costs) are embedded as rationals: the Python code
uses floats, but every value the claims touch is a small decimal on which
Python float arithmetic is exact.  A Firestore document that is absent is
`Option.none`; a Python dict field that may be missing is an `Option`.
-/

namespace AppleLaidG

/-! ## Model registry (`src/config.py`) -/

/-- One entry of the `llm_models` section of the YAML configuration, as read by
`BaseLLM.__init__` and `LLMRouter.get_model_cost`.  Fields that the embedded
code paths consult; `.get('cost', 0)`-style defaults are materialised when a
registry value is built. -/
structure ModelConfig where
  provider : String
  cost : ℚ
  temperature : ℚ
  maxTokens : Nat
  reasoningModel : Bool
  webSearch : Bool
  vision : Bool
  priority : Bool
deriving Repr, DecidableEq

/-- The registry: the `llm_models` mapping of the loaded configuration. -/
abbrev Registry := List (String × ModelConfig)

/-- `Config.get_llm_config(model_name)` (src/config.py:42-44).  The Python
function returns `{}` (falsy) for an unknown name; `none` embeds that empty
dict, since every consumer immediately tests truthiness. -/
def get_llm_config (reg : Registry) (name : String) : Option ModelConfig :=
  (reg.find? (fun p => p.1 == name)).map Prod.snd

/-- `LLMRouter.get_model_cost` (src/services/llm_router.py:29-32):
`model_config.get('cost', 0) if model_config else 0`. -/
def get_model_cost (reg : Registry) (name : String) : ℚ :=
  match get_llm_config reg name with
  | some c => c.cost
  | none => 0

/-- The provider variants dispatched by `create_llm` (src/llms/llm_factory.py). -/
inductive Provider
  | openai
  | anthropic
  | google
  | deepseek
  | xai
deriving Repr, DecidableEq

/-- `create_llm` (src/llms/llm_factory.py:5-36): raises `ValueError` on an
unknown model name or an unrecognised provider id; the `Except.error` carries
the exception message. -/
def create_llm (reg : Registry) (name : String) : Except String Provider :=
  match get_llm_config reg name with
  | none => .error ("Unknown model: " ++ name)
  | some c =>
    if c.provider = "openai" then .ok .openai
    else if c.provider = "anthropic" then .ok .anthropic
    else if c.provider = "google" then .ok .google
    else if c.provider = "deepseek" then .ok .deepseek
    else if c.provider = "xai" then .ok .xai
    else .error ("Unknown provider: " ++ c.provider)

/-! ## Credit ledger (`src/services/credit_service.py`)

The claims concern a single user, so the ledger state carries that user's
`credits/{user_id}` document (`none` when the document does not exist) and the
user's slice of the append-only `transactions` collection, in insertion
order. -/

/-- The `credits/{user_id}` document: `balance` and `total_used`
(timestamps are not modelled; no claim mentions them). -/
structure Account where
  balance : ℚ
  totalUsed : ℚ
deriving Repr, DecidableEq

/-- Discriminates the two transaction shapes written by the service:
usage records from `deduct_credits` and `'type': 'credit_added'` records
from `add_credits`. -/
inductive TxnKind
  | usage
  | creditAdded
deriving Repr, DecidableEq

/-- A `transactions` document.  `model` is present only on usage records;
`amount` is `credits_used` resp. `credits_added`. -/
structure Txn where
  kind : TxnKind
  model : Option String
  amount : ℚ
  balanceAfter : ℚ
deriving Repr, DecidableEq

/-- The ledger state for one user. -/
structure Ledger where
  account : Option Account
  txns : List Txn
deriving Repr, DecidableEq

/-- `config.get('app.free_credits', 10)` (src/services/credit_service.py:8). -/
def free_credits : ℚ := 10

/-- `CreditService.initialize_user` (src/services/credit_service.py:21-28). -/
def initialize_user (st : Ledger) : Ledger :=
  { st with account := some { balance := free_credits, totalUsed := 0 } }

/-- `CreditService.get_balance` (src/services/credit_service.py:10-19).
Returns the balance and the (possibly initialised) ledger: a missing account
is created with the free starting balance and `free_credits` is returned. -/
def get_balance (st : Ledger) : ℚ × Ledger :=
  match st.account with
  | none => (free_credits, initialize_user st)
  | some a => (a.balance, st)

/-- `CreditService.has_sufficient_credits` (src/services/credit_service.py:30-33). -/
def has_sufficient_credits (st : Ledger) (amount : ℚ) : Bool × Ledger :=
  let (b, st') := get_balance st
  (amount ≤ b, st')

/-- `CreditService.deduct_credits` (src/services/credit_service.py:35-63),
taken as one uninterrupted execution: read the document (initialising it first
when absent), write `balance - amount` and `total_used + amount`, append a
usage transaction, return the new balance.  No sufficiency check, no error on
overdraft. -/
def deduct_credits (st : Ledger) (amount : ℚ) (model : String) : ℚ × Ledger :=
  let st₀ := match st.account with
    | none => initialize_user st
    | some _ => st
  match st₀.account with
  | none => (0, st₀)  -- unreachable: the document exists after initialisation
  | some data =>
    let newBalance := data.balance - amount
    let st₁ : Ledger :=
      { st₀ with account := some { balance := newBalance,
                                   totalUsed := data.totalUsed + amount } }
    let st₂ : Ledger :=
      { st₁ with txns := st₁.txns ++
          [{ kind := .usage, model := some model,
             amount := amount, balanceAfter := newBalance }] }
    (newBalance, st₂)

/-- `CreditService.add_credits` (src/services/credit_service.py:65-91):
like the debit, but adds the amount, leaves `total_used` untouched, and logs a
`credit_added` transaction.  There is no sign check on `amount`. -/
def add_credits (st : Ledger) (amount : ℚ) : ℚ × Ledger :=
  let st₀ := match st.account with
    | none => initialize_user st
    | some _ => st
  match st₀.account with
  | none => (0, st₀)  -- unreachable: the document exists after initialisation
  | some data =>
    let newBalance := data.balance + amount
    let st₁ : Ledger :=
      { st₀ with account := some { balance := newBalance,
                                   totalUsed := data.totalUsed } }
    let st₂ : Ledger :=
      { st₁ with txns := st₁.txns ++
          [{ kind := .creditAdded, model := none,
             amount := amount, balanceAfter := newBalance }] }
    (newBalance, st₂)

/-! ## Fine-grained debit executions (src/services/credit_service.py:35-63)

`deduct_credits` is not a single atomic operation against the store: it
performs (1) a document read `credit_ref.get()`, (2) a balance/total_used
write `credit_ref.update(...)`, (3) an append to `transactions`.  Two
concurrent debits interleave these primitive steps.  A thread is a program
counter plus the local copy of the document taken at step (1); a schedule is
the list of thread choices (`false` = first thread, `true` = second). -/

/-- Local state of one in-flight `deduct_credits` call. -/
structure DebitThread where
  amount : ℚ
  model : String
  /-- the `credit_doc.to_dict()` snapshot taken by the read step -/
  readData : Option Account
  /-- 0 = before the read, 1 = read done, 2 = `update` done, 3 = finished -/
  pc : Nat
deriving Repr, DecidableEq

/-- A fresh `deduct_credits user amount model` call, before its first store
access. -/
def DebitThread.start (amount : ℚ) (model : String) : DebitThread :=
  { amount := amount, model := model, readData := none, pc := 0 }

/-- One primitive store access of `deduct_credits`.  The read step folds the
initialise-if-absent branch (lines 41-43) into the read, since neither claim
exercises it against an absent account.  The write step uses only the
thread-local snapshot — exactly the read-then-write pattern of the source. -/
def debitStep (st : Ledger) (t : DebitThread) : Ledger × DebitThread :=
  match t.pc with
  | 0 =>
    match st.account with
    | some data => (st, { t with readData := some data, pc := 1 })
    | none =>
      let st' := initialize_user st
      (st', { t with readData := some { balance := free_credits, totalUsed := 0 },
                     pc := 1 })
  | 1 =>
    match t.readData with
    | some data =>
      ({ st with account := some { balance := data.balance - t.amount,
                                   totalUsed := data.totalUsed + t.amount } },
       { t with pc := 2 })
    | none => (st, t)
  | 2 =>
    match t.readData with
    | some data =>
      ({ st with txns := st.txns ++
          [{ kind := .usage, model := some t.model,
             amount := t.amount, balanceAfter := data.balance - t.amount }] },
       { t with pc := 3 })
    | none => (st, t)
  | _ => (st, t)

/-- Run two debit threads under a schedule: `false` steps the first thread,
`true` the second. -/
def runDebits (st : Ledger) (t₁ t₂ : DebitThread) :
    List Bool → Ledger × DebitThread × DebitThread
  | [] => (st, t₁, t₂)
  | c :: cs =>
    if c then
      let (st', t₂') := debitStep st t₂
      runDebits st' t₁ t₂' cs
    else
      let (st', t₁') := debitStep st t₁
      runDebits st' t₁' t₂ cs

/-- The serial schedule: all of thread one, then all of thread two. -/
def serialSchedule : List Bool := [false, false, false, true, true, true]

/-- The racy schedule: both threads read before either writes. -/
def racySchedule : List Bool := [false, true, false, false, true, true]

/-! ## A flat JSON object decoder

Models Python's `json.loads` as the adapters use it on function-call argument
strings: every argument object the claims touch is a flat object with string
values (e.g. the spec's `\x7b"location": "NYC"\x7d`).  String escapes are not
modelled — no claim input contains them. -/

/-- Strip leading JSON whitespace. -/
def skipWs : List Char → List Char
  | c :: cs => if c = ' ' ∨ c = '\t' ∨ c = '\n' ∨ c = '\r' then skipWs cs else c :: cs
  | [] => []

/-- Scan the body of a quoted string up to the closing quote. -/
def scanString : List Char → String → Option (String × List Char)
  | [], _ => none
  | c :: cs, acc => if c = '"' then some (acc, cs) else scanString cs (acc.push c)

/-- Parse a leading quoted string. -/
def parseQuoted (cs : List Char) : Option (String × List Char) :=
  match skipWs cs with
  | '"' :: rest => scanString rest ""
  | _ => none

/-- Parse `"key": "value"` pairs separated by commas, up to the closing
brace.  `fuel` bounds the recursion by the input length. -/
def parsePairs (fuel : Nat) (cs : List Char) (acc : List (String × String)) :
    Option (List (String × String) × List Char) :=
  match fuel with
  | 0 => none
  | fuel + 1 =>
    match parseQuoted cs with
    | none => none
    | some (key, rest₁) =>
      match skipWs rest₁ with
      | ':' :: rest₂ =>
        match parseQuoted rest₂ with
        | none => none
        | some (val, rest₃) =>
          match skipWs rest₃ with
          | ',' :: rest₄ => parsePairs fuel rest₄ (acc ++ [(key, val)])
          | '}' :: rest₄ => some (acc ++ [(key, val)], rest₄)
          | _ => none
      | _ => none

/-- `json.loads` restricted to flat string-valued objects; `none` models a
raised `json.JSONDecodeError`. -/
def json_loads_flat (s : String) : Option (List (String × String)) :=
  match skipWs s.toList with
  | '{' :: rest =>
    match skipWs rest with
    | '}' :: rest' => if skipWs rest' = [] then some [] else none
    | rest' =>
      match parsePairs (s.length + 1) rest' [] with
      | some (pairs, rest'') => if skipWs rest'' = [] then some pairs else none
      | none => none
  | _ => none

/-! ## Canonical chat model

The request/response dict shapes exchanged with every adapter, as exercised by
`src/test_llm.py` and read by the adapters' `llm_response` methods.
`available_functions` (tool declarations) are not embedded: no claim depends
on the tool-schema translation. -/

/-- One `conversation_history` entry.  A text turn carries `role`/`content`;
a `function_call` entry carries `name`, the JSON-string `arguments` and an
optional `call_id`; a `function_call_output` carries `name`, `call_id`,
`output` (cf. src/test_llm.py:72-86 — these entries carry no `role` key). -/
inductive CanonicalMsg
  | text (role : String) (content : String)
  | functionCall (name : String) (arguments : String) (callId : Option String)
  | functionCallOutput (name : String) (callId : Option String) (output : String)
deriving Repr, DecidableEq

/-- The `complete_chat` dict: `instruction` (`none` = key missing or falsy),
`conversation_history`, `img_data` (base64 strings; `[]` = missing/falsy). -/
structure CompleteChat where
  instruction : Option String
  conversationHistory : List CanonicalMsg
  imgData : List String
deriving Repr, DecidableEq

/-- A parsed function/tool invocation in an adapter's canonical response:
`name`, structured `arguments`, optional `call_id` (`none` also embeds an
absent `call_id` key, as produced by the Gemini parser). -/
structure FnCall where
  name : String
  arguments : List (String × String)
  callId : Option String
deriving Repr, DecidableEq

/-- The canonical response dict `\x7b"message", "function_call"\x7d`;
a missing key is `none`. -/
structure CanonicalResponse where
  message : Option String
  functionCall : Option FnCall
deriving Repr, DecidableEq

/-- Outcome of the provider invocation inside an adapter's `try` block:
either the provider's wire response, or an exception with its message —
`exn` also covers exceptions raised before or after the network call but
inside the same `try` (translation and parsing failures). -/
inductive ProviderOutcome (α : Type)
  | ok (resp : α)
  | exn (detail : String)
deriving Repr, DecidableEq

/-! ## OpenAI-compatible wire shapes (src/llms/llm_openai.py, llm_grok.py,
llm_deepseek.py) -/

/-- One entry of an assistant message's `tool_calls` list. -/
structure OAToolCall where
  id : Option String
  name : String
  arguments : String
deriving Repr, DecidableEq

/-- A content part of a multi-part user message. -/
inductive OAIPart
  | text (s : String)
  | imageUrl (url : String)
deriving Repr, DecidableEq

/-- A provider-bound chat message in the OpenAI-compatible dict shape.
`sys` is the instruction message (role `system` or `developer`);
the `content: None` field on tool-call messages is not represented. -/
inductive OAIMsg
  | sys (role : String) (content : String)
  | chat (role : String) (content : String)
  | assistantToolCalls (toolCalls : List OAToolCall)
  | toolResult (content : String) (toolCallId : Option String)
  | userParts (parts : List OAIPart)
deriving Repr, DecidableEq

/-- A chat-completions response, projected to the fields the parsers read:
`choices[i].message.content` and `choices[i].message.tool_calls`. -/
structure OAChatResponse where
  choices : List (Option String × List OAToolCall)
deriving Repr, DecidableEq

/-- The inline-image data URL built by the OpenAI-compatible adapters. -/
def data_url (b64 : String) : String := "data:image/png;base64," ++ b64

/-- `LlmOpenAi.process_conversation_history` (src/llms/llm_openai.py:49-84):
function calls become assistant `tool_calls` messages, outputs become `tool`
messages, plain turns pass through for roles `user`/`assistant` (others are
dropped). -/
def openai_process_history (msgs : List CanonicalMsg) : List OAIMsg :=
  msgs.filterMap fun m =>
    match m with
    | .functionCall name args callId =>
      some (.assistantToolCalls [{ id := callId, name := name, arguments := args }])
    | .functionCallOutput _ callId output =>
      some (.toolResult output callId)
    | .text role content =>
      if role = "user" ∨ role = "assistant" then some (.chat role content) else none

/-- The message-building section of `LlmOpenAi.llm_response`
(src/llms/llm_openai.py:110-135): optional instruction message (role
`developer` for reasoning models, else `system`), translated history, then —
whenever `img_data` is non-empty, with no vision-capability check — one user
message holding every image as an inline data URL. -/
def openai_build_messages (cfg : ModelConfig) (chat : CompleteChat) : List OAIMsg :=
  (match chat.instruction with
   | some i => [OAIMsg.sys (if cfg.reasoningModel then "developer" else "system") i]
   | none => []) ++
  openai_process_history chat.conversationHistory ++
  (if chat.imgData = [] then []
   else [OAIMsg.userParts (chat.imgData.map (fun b => OAIPart.imageUrl (data_url b)))])

/-- `LlmOpenAi.parse_response`, standard chat-completions branch
(src/llms/llm_openai.py:194-219).  `Except.error` models an exception
escaping to `llm_response`'s handler: indexing an empty `choices` list, or
`json.loads` failing on the tool-call arguments. -/
def openai_parse_response (r : OAChatResponse) : Except String CanonicalResponse :=
  match r.choices with
  | [] => .error "list index out of range"
  | (content, toolCalls) :: _ =>
    let messageText : Option String :=
      match content with
      | some c => if c = "" then none else some c
      | none => none
    match toolCalls with
    | [] =>
      .ok (if messageText = none then { message := some "No response generated", functionCall := none }
           else { message := messageText, functionCall := none })
    | tc :: _ =>
      match json_loads_flat tc.arguments with
      | none => .error "json decode error"
      | some args =>
        .ok { message := messageText,
              functionCall := some { name := tc.name, arguments := args, callId := tc.id } }

/-- `LlmOpenAi.llm_response`, response side (src/llms/llm_openai.py:86-176):
parse the provider outcome; any exception inside the `try` block becomes a
successful canonical response carrying an `OpenAI Error:` message. -/
def openai_llm_response (outcome : ProviderOutcome OAChatResponse) : CanonicalResponse :=
  match outcome with
  | .exn d => { message := some ("OpenAI Error: " ++ d), functionCall := none }
  | .ok r =>
    match openai_parse_response r with
    | .ok resp => resp
    | .error d => { message := some ("OpenAI Error: " ++ d), functionCall := none }

/-- `LlmGrok.process_conversation_history` (src/llms/llm_grok.py:41-71):
same shape as OpenAI, but the `role` check comes first. -/
def grok_process_history (msgs : List CanonicalMsg) : List OAIMsg :=
  msgs.filterMap fun m =>
    match m with
    | .text role content =>
      if role = "user" ∨ role = "assistant" then some (.chat role content) else none
    | .functionCall name args callId =>
      some (.assistantToolCalls [{ id := callId, name := name, arguments := args }])
    | .functionCallOutput _ callId output =>
      some (.toolResult output callId)

/-- The message-building section of `LlmGrok.llm_response`
(src/llms/llm_grok.py:89-109): instruction, history, and images only when
`img_data` is non-empty AND the model declares the vision capability. -/
def grok_build_messages (cfg : ModelConfig) (chat : CompleteChat) : List OAIMsg :=
  (match chat.instruction with
   | some i => [OAIMsg.sys (if cfg.reasoningModel then "developer" else "system") i]
   | none => []) ++
  grok_process_history chat.conversationHistory ++
  (if chat.imgData ≠ [] ∧ cfg.vision then
    [OAIMsg.userParts (OAIPart.text "Please analyze the attached image(s):" ::
      chat.imgData.map (fun b => OAIPart.imageUrl (data_url b)))]
   else [])

/-- `LlmGrok.parse_response` (src/llms/llm_grok.py:139-157): `message` is
always present (possibly empty); the first tool call, if any, is decoded. -/
def grok_parse_response (r : OAChatResponse) : Except String CanonicalResponse :=
  match r.choices with
  | [] => .error "list index out of range"
  | (content, toolCalls) :: _ =>
    let messageText := match content with
      | some c => if c = "" then "" else c
      | none => ""
    match toolCalls with
    | [] => .ok { message := some messageText, functionCall := none }
    | tc :: _ =>
      match json_loads_flat tc.arguments with
      | none => .error "json decode error"
      | some args =>
        .ok { message := some messageText,
              functionCall := some { name := tc.name, arguments := args, callId := tc.id } }

/-- `LlmGrok.llm_response`, response side (src/llms/llm_grok.py:73-137). -/
def grok_llm_response (outcome : ProviderOutcome OAChatResponse) : CanonicalResponse :=
  match outcome with
  | .exn d => { message := some ("Grok Error: " ++ d), functionCall := none }
  | .ok r =>
    match grok_parse_response r with
    | .ok resp => resp
    | .error d => { message := some ("Grok Error: " ++ d), functionCall := none }

/-- `LlmDeepSeek.process_conversation_history` (src/llms/llm_deepseek.py:40-69):
plain turns pass through for roles `user`/`assistant`/`system`/`tool`. -/
def deepseek_process_history (msgs : List CanonicalMsg) : List OAIMsg :=
  msgs.filterMap fun m =>
    match m with
    | .text role content =>
      if role = "user" ∨ role = "assistant" ∨ role = "system" ∨ role = "tool" then
        some (.chat role content)
      else none
    | .functionCall name args callId =>
      some (.assistantToolCalls [{ id := callId, name := name, arguments := args }])
    | .functionCallOutput _ callId output =>
      some (.toolResult output callId)

/-- `LlmDeepSeek.parse_response` (src/llms/llm_deepseek.py:127-145):
identical in effect to the Grok parser for the embedded fields. -/
def deepseek_parse_response (r : OAChatResponse) : Except String CanonicalResponse :=
  match r.choices with
  | [] => .error "list index out of range"
  | (content, toolCalls) :: _ =>
    let messageText := match content with
      | some c => if c = "" then "" else c
      | none => ""
    match toolCalls with
    | [] => .ok { message := some messageText, functionCall := none }
    | tc :: _ =>
      match json_loads_flat tc.arguments with
      | none => .error "json decode error"
      | some args =>
        .ok { message := some messageText,
              functionCall := some { name := tc.name, arguments := args, callId := tc.id } }

/-- `LlmDeepSeek.llm_response`, response side (src/llms/llm_deepseek.py:71-125). -/
def deepseek_llm_response (outcome : ProviderOutcome OAChatResponse) : CanonicalResponse :=
  match outcome with
  | .exn d => { message := some ("DeepSeek Error: " ++ d), functionCall := none }
  | .ok r =>
    match deepseek_parse_response r with
    | .ok resp => resp
    | .error d => { message := some ("DeepSeek Error: " ++ d), functionCall := none }

/-! ## Anthropic wire shapes (src/llms/llm_anthropic.py) -/

/-- A content block of an Anthropic message or response. -/
inductive ACBlock
  | text (text : String)
  | toolUse (name : String) (id : Option String) (input : List (String × String))
  | toolResult (toolUseId : Option String) (content : String)
  | image (data : String)
deriving Repr, DecidableEq

/-- A provider-bound Anthropic message: role plus content blocks. -/
structure ACMsg where
  role : String
  content : List ACBlock
deriving Repr, DecidableEq

/-- An Anthropic response, projected to its content blocks. -/
structure ACResponse where
  content : List ACBlock
deriving Repr, DecidableEq

/-- `LlmAnthropic.process_conversation_history`
(src/llms/llm_anthropic.py:38-71).  The `function_call` branch runs
`json.loads` on the argument string; `none` models that exception escaping to
`llm_response`'s handler. -/
def anthropic_process_history : List CanonicalMsg → Option (List ACMsg)
  | [] => some []
  | m :: ms => do
    let rest ← anthropic_process_history ms
    match m with
    | .text role content =>
      if role = "user" ∨ role = "assistant" then
        pure ({ role := role, content := [ACBlock.text content] } :: rest)
      else
        pure rest
    | .functionCall name args callId => do
      let input ← json_loads_flat args
      pure ({ role := "assistant",
              content := [ACBlock.toolUse name callId input] } :: rest)
    | .functionCallOutput _ callId output =>
      pure ({ role := "user",
              content := [ACBlock.toolResult callId output] } :: rest)

/-- The message-building section of `LlmAnthropic.llm_response`
(src/llms/llm_anthropic.py:96-112): the translated history, then — whenever
`img_data` is non-empty, with no vision-capability check — one user message
per image.  (The instruction travels in the `system` call parameter, not in
the messages.) -/
def anthropic_build_messages (chat : CompleteChat) : Option (List ACMsg) := do
  let ms ← anthropic_process_history chat.conversationHistory
  pure (ms ++ chat.imgData.map (fun b => { role := "user", content := [ACBlock.image b] }))

/-- `LlmAnthropic.parse_response` (src/llms/llm_anthropic.py:150-171):
concatenate the text blocks; the last `tool_use` block becomes the function
call (its `input` is already structured).  The result can be the empty dict
when a response carries neither. -/
def anthropic_parse_response (r : ACResponse) : CanonicalResponse :=
  let messageText := r.content.foldl
    (fun acc b => match b with | ACBlock.text t => acc ++ t | _ => acc) ""
  let functionCall := r.content.foldl
    (fun acc b => match b with
      | ACBlock.toolUse name id input => some { name := name, arguments := input, callId := id }
      | _ => acc)
    (none : Option FnCall)
  { message := if messageText = "" then none else some messageText,
    functionCall := functionCall }

/-- `LlmAnthropic.llm_response`, response side (src/llms/llm_anthropic.py:73-148). -/
def anthropic_llm_response (outcome : ProviderOutcome ACResponse) : CanonicalResponse :=
  match outcome with
  | .exn d => { message := some ("Claude Error: " ++ d), functionCall := none }
  | .ok r => anthropic_parse_response r

/-! ## Gemini wire shapes (src/llms/llm_gemini.py) -/

/-- A part of a Gemini content entry or response candidate. -/
inductive GemPart
  | text (s : String)
  | functionCall (name : String) (args : List (String × String))
  | functionResponse (name : String) (content : String)
  | inlineData (data : String)
deriving Repr, DecidableEq

/-- A provider-bound Gemini content entry. -/
structure GemContent where
  role : String
  parts : List GemPart
deriving Repr, DecidableEq

/-- A Gemini response candidate: its content parts and `finish_reason`
(already rendered with `str`). -/
structure GemCandidate where
  parts : List GemPart
  finishReason : Option String
deriving Repr, DecidableEq

/-- A Gemini response, projected to its candidates. -/
structure GemResponse where
  candidates : List GemCandidate
deriving Repr, DecidableEq

/-- `LlmGemini._process_history_for_sdk` (src/llms/llm_gemini.py:112-153).
The role is normalised and validated BEFORE the `type` dispatch, so a
`function_call` / `function_call_output` entry — which carries no `role`
key — fails the `role not in ["user", "model", "function"]` check and is
skipped with a warning; the later branches that would rewrite the role are
unreachable for the canonical roleless entries.  A plain turn is kept when
its (normalised) role is valid and its content is non-empty. -/
def gemini_process_history (msgs : List CanonicalMsg) : List GemContent :=
  msgs.filterMap fun m =>
    match m with
    | .functionCall _ _ _ => none
    | .functionCallOutput _ _ _ => none
    | .text role content =>
      let role := if role = "assistant" then "model" else role
      if role = "user" ∨ role = "model" ∨ role = "function" then
        if content = "" then none
        else some { role := role, parts := [GemPart.text content] }
      else none

/-- `LlmGemini._parse_response` (src/llms/llm_gemini.py:174-215).  Note the
function-call dict it builds has NO `call_id` key. -/
def gemini_parse_response (r : GemResponse) : CanonicalResponse :=
  match r.candidates with
  | [] => { message := some "Gemini Error: Model response has no candidates.",
            functionCall := none }
  | c :: _ =>
    let messageText := c.parts.foldl
      (fun acc p => match p with | GemPart.text t => if t = "" then acc else acc ++ t | _ => acc) ""
    let functionCall := c.parts.foldl
      (fun acc p => match p with
        | GemPart.functionCall name args => some { name := name, arguments := args, callId := none }
        | _ => acc)
      (none : Option FnCall)
    let messageText :=
      match c.finishReason with
      | some fr =>
        if fr ≠ "STOP" ∧ fr ≠ "1" ∧ messageText = "" ∧ functionCall = none then
          "Model stopped. Reason: " ++ fr ++ "."
        else messageText
      | none => messageText
    { message := if messageText.trim = "" then
                   (if functionCall = none then some "" else none)
                 else some messageText.trim,
      functionCall := functionCall }

/-- `LlmGemini.llm_response`, response side (src/llms/llm_gemini.py:32-91). -/
def gemini_llm_response (outcome : ProviderOutcome GemResponse) : CanonicalResponse :=
  match outcome with
  | .exn d => { message := some ("Gemini Critical Error: " ++ d), functionCall := none }
  | .ok r => gemini_parse_response r

/-! ## Round trips: canonical function call → provider wire → parsed back

Each round trip translates one canonical `function_call` history entry with
the adapter's history translation, wraps the resulting tool invocation in the
provider's matching response shape, and runs the adapter's parser on it. -/

/-- OpenAI round trip: the assistant `tool_calls` message echoed back through
a chat-completions response with `content = None`. -/
def openai_round_trip (m : CanonicalMsg) : Option FnCall :=
  match openai_process_history [m] with
  | [OAIMsg.assistantToolCalls tcs] =>
    match openai_parse_response { choices := [(none, tcs)] } with
    | .ok r => r.functionCall
    | .error _ => none
  | _ => none

/-- Grok round trip. -/
def grok_round_trip (m : CanonicalMsg) : Option FnCall :=
  match grok_process_history [m] with
  | [OAIMsg.assistantToolCalls tcs] =>
    match grok_parse_response { choices := [(none, tcs)] } with
    | .ok r => r.functionCall
    | .error _ => none
  | _ => none

/-- DeepSeek round trip. -/
def deepseek_round_trip (m : CanonicalMsg) : Option FnCall :=
  match deepseek_process_history [m] with
  | [OAIMsg.assistantToolCalls tcs] =>
    match deepseek_parse_response { choices := [(none, tcs)] } with
    | .ok r => r.functionCall
    | .error _ => none
  | _ => none

/-- Anthropic round trip: the `tool_use` block echoed back in a response. -/
def anthropic_round_trip (m : CanonicalMsg) : Option FnCall :=
  match anthropic_process_history [m] with
  | some [msg] => (anthropic_parse_response { content := msg.content }).functionCall
  | _ => none

/-- Gemini round trip: the translated content echoed back as the single
candidate (finish reason `STOP`).  When the translation drops the entry
entirely, the round trip yields nothing. -/
def gemini_round_trip (m : CanonicalMsg) : Option FnCall :=
  match gemini_process_history [m] with
  | [c] =>
    (gemini_parse_response
      { candidates := [{ parts := c.parts, finishReason := some "STOP" }] }).functionCall
  | _ => none

/-- The round-trip input fixed by the spec: name `get_weather`, arguments
`\x7b"location": "NYC"\x7d`, call id `call_123` (src/test_llm.py:74-79). -/
def weather_msg : CanonicalMsg :=
  .functionCall "get_weather" "\x7b\"location\": \"NYC\"\x7d" (some "call_123")

/-! ## Instruction state on cached adapters

`LLMRouter` caches one adapter instance per model name
(src/services/llm_router.py:11-15) and every call for that model goes
through the same instance.  `BaseLLM.llm_set_instruction` stores the
instruction on the instance (src/llms/base_llm.py:35-36); the Gemini adapter
re-stores a provided instruction and passes `self.instruction` — whatever it
currently holds — to the provider call
(src/llms/llm_gemini.py:48-49 and 71). -/

/-- `BaseLLM.llm_set_instruction`: overwrite the instance field. -/
def llm_set_instruction (_adapterInstr : Option String) (instruction : String) :
    Option String :=
  some instruction

/-- `LLMRouter.process_request`, instruction step
(src/services/llm_router.py:21-24): set the instruction on the cached
adapter only when the chat provides one. -/
def router_apply_instruction (adapterInstr chatInstr : Option String) : Option String :=
  match chatInstr with
  | some i => llm_set_instruction adapterInstr i
  | none => adapterInstr

/-- The instruction handling inside `LlmGemini.llm_response`
(src/llms/llm_gemini.py:48-49, 67-73): re-store a provided instruction, then
use `self.instruction` as the provider call's `system_instruction`.  Returns
(instruction sent to the provider, instance field after the call). -/
def gemini_call_instruction (adapterInstr chatInstr : Option String) :
    Option String × Option String :=
  let selfInstr := match chatInstr with
    | some i => some i
    | none => adapterInstr
  (selfInstr, selfInstr)

/-- One `process_request` on the cached Gemini adapter, tracking only the
instruction: router step, then the adapter's own handling.  Returns
(instruction sent to the provider, instance field after the call). -/
def process_request_instruction (adapterInstr chatInstr : Option String) :
    Option String × Option String :=
  gemini_call_instruction (router_apply_instruction adapterInstr chatInstr) chatInstr

/-! ## Gateway handlers (src/app/api.py) -/

/-- The fixed user-facing insufficiency message (src/app/api.py:39). -/
def insufficient_credit_message : String :=
  "You don\x27t have enough **Lexi Credit**, Please **Recharge Credits** under **More Options**"

/-- Outcome of the `get_llm_response` handler: 400, 200, or 500 responses. -/
inductive GatewayOut
  | badRequest (error : String)
  | ok (llmResponse : String) (functionCall : Option FnCall) (creditRemaining : ℚ)
  | serverError (error : String) (creditRemaining : ℚ)
deriving Repr, DecidableEq

/-- The request JSON of `/api/get_llm_response`, projected to what the
handler touches plus the query type.  The handler reads ONLY
`llm_class_name` and `complete_chat` (src/app/api.py:26-27); `queryType` is
carried so that its irrelevance is expressible. -/
structure GatewayRequest where
  llmClassName : Option String
  completeChat : Option CompleteChat
  queryType : String
deriving Repr, DecidableEq

/-- The `get_llm_response` handler (src/app/api.py:20-65).  `providerResp`
is the canonical response `LLMRouter.process_request` returns for this call:
the adapters' failure policy makes `llm_response` total, so the provider
interaction is abstracted into this argument; the only exception the
handler's `try` can see before the debit is the `ValueError` from
`create_llm` on the first (uncached) use of a model name, modelled by the
`create_llm` match. -/
def get_llm_response (reg : Registry) (req : GatewayRequest)
    (providerResp : CanonicalResponse) (st : Ledger) : GatewayOut × Ledger :=
  match req.llmClassName, req.completeChat with
  | none, _ => (.badRequest "Missing llm_class_name or complete_chat", st)
  | some _, none => (.badRequest "Missing llm_class_name or complete_chat", st)
  | some modelName, some _chat =>
    let cost := get_model_cost reg modelName
    let (sufficient, st₁) := has_sufficient_credits st cost
    if sufficient then
      match create_llm reg modelName with
      | .error e =>
        let (bal, st₂) := get_balance st₁
        (.serverError ("LLM processing error: " ++ e) bal, st₂)
      | .ok _provider =>
        let (newBalance, st₂) := deduct_credits st₁ cost modelName
        (.ok (providerResp.message.getD "") providerResp.functionCall newBalance, st₂)
    else
      let (bal, st₂) := get_balance st₁
      (.ok insufficient_credit_message none bal, st₂)

/-- The `lexi_credits_added` value of a recharge request:
missing, not parseable by `float(...)`, or a parsed number. -/
inductive RechargeAmount
  | missing
  | unparseable
  | value (q : ℚ)
deriving Repr, DecidableEq

/-- Outcome of the `recharge_user_credit` handler. -/
inductive RechargeOut
  | badRequest (error : String)
  | success (newBalance : ℚ)
deriving Repr, DecidableEq

/-- The `recharge_user_credit` handler (src/app/api.py:67-85): validation is
exactly `float(credits_to_add)` succeeding — there is no sign check — and a
parsed amount goes straight to `add_credits`. -/
def recharge_user_credit (amount : RechargeAmount) (st : Ledger) : RechargeOut × Ledger :=
  match amount with
  | .missing => (.badRequest "Missing lexi_credits_added parameter", st)
  | .unparseable => (.badRequest "Invalid value for lexi_credits_added", st)
  | .value q =>
    let (newBalance, st') := add_credits st q
    (.success newBalance, st')

/-! ## Image-attachment observations and concrete fixtures -/

/-- Whether a content part is an inline image. -/
def OAIPart.isImage : OAIPart → Bool
  | .imageUrl _ => true
  | _ => false

/-- Whether an OpenAI-compatible message carries an inline image. -/
def oai_msg_has_image : OAIMsg → Bool
  | .userParts parts => parts.any OAIPart.isImage
  | _ => false

/-- Whether an OpenAI-compatible message sequence carries an inline image. -/
def oai_has_image (msgs : List OAIMsg) : Bool := msgs.any oai_msg_has_image

/-- Whether an Anthropic message carries an image block. -/
def ac_msg_has_image (m : ACMsg) : Bool :=
  m.content.any fun b => match b with | ACBlock.image _ => true | _ => false

/-- Whether an Anthropic message sequence carries an image block. -/
def ac_has_image (msgs : List ACMsg) : Bool := msgs.any ac_msg_has_image

/-- A registry entry: an OpenAI-provider model costing 2 credits, without the
vision capability. -/
def sample_config : ModelConfig :=
  { provider := "openai", cost := 2, temperature := 0, maxTokens := 100,
    reasoningModel := false, webSearch := false, vision := false, priority := false }

/-- A one-model registry binding the name `m`. -/
def sample_registry : Registry := [("m", sample_config)]

/-- A chat with no instruction, empty history and no images. -/
def empty_chat : CompleteChat :=
  { instruction := none, conversationHistory := [], imgData := [] }

/-- A chat whose only payload is one base64 image. -/
def image_chat : CompleteChat :=
  { instruction := none, conversationHistory := [], imgData := ["abc"] }

/-- A canonical provider response with a plain text message. -/
def hi_response : CanonicalResponse := { message := some "hi", functionCall := none }

/-! ## Helper lemmas -/

/-- The Grok history translation never produces an image-carrying message. -/
lemma grok_history_no_image (msgs : List CanonicalMsg) :
    oai_has_image (grok_process_history msgs) = false := by
  rw [oai_has_image, List.any_eq_false]
  intro m hm
  simp only [grok_process_history, List.mem_filterMap] at hm
  obtain ⟨c, -, hc⟩ := hm
  cases c with
  | text role content =>
    rcases Decidable.em (role = "user" ∨ role = "assistant") with h | h
    · simp only [if_pos h, Option.some.injEq] at hc
      subst hc
      simp [oai_msg_has_image]
    · simp only [if_neg h] at hc
      exact absurd hc (by simp)
  | functionCall name args callId =>
    simp only [Option.some.injEq] at hc
    subst hc
    simp [oai_msg_has_image]
  | functionCallOutput name callId output =>
    simp only [Option.some.injEq] at hc
    subst hc
    simp [oai_msg_has_image]

/-! ## Claim theorems -/

/-- C1: the claim demands that two concurrent debits of N = 2 against a
balance B = 10 leave exactly B - 2N = 6 with no lost update.  The code's
read-then-write `deduct_credits` violates this: under the interleaving in
which both calls read the document before either writes, the final stored
balance is 8 — one update is lost — and both appended usage transactions
record balance_after 8; the serial schedule (which agrees with two
uninterrupted runs of `deduct_credits`) does end at 6. -/
theorem C1_lost_update :
    (runDebits { account := some { balance := 10, totalUsed := 0 }, txns := [] }
        (DebitThread.start 2 "m") (DebitThread.start 2 "m") racySchedule).1 =
      { account := some { balance := 8, totalUsed := 2 },
        txns := [{ kind := .usage, model := some "m", amount := 2, balanceAfter := 8 },
                 { kind := .usage, model := some "m", amount := 2, balanceAfter := 8 }] } ∧
    (runDebits { account := some { balance := 10, totalUsed := 0 }, txns := [] }
        (DebitThread.start 2 "m") (DebitThread.start 2 "m") serialSchedule).1 =
      { account := some { balance := 6, totalUsed := 4 },
        txns := [{ kind := .usage, model := some "m", amount := 2, balanceAfter := 8 },
                 { kind := .usage, model := some "m", amount := 2, balanceAfter := 6 }] } ∧
    (deduct_credits
        (deduct_credits { account := some { balance := 10, totalUsed := 0 }, txns := [] }
          2 "m").2 2 "m").2 =
      { account := some { balance := 6, totalUsed := 4 },
        txns := [{ kind := .usage, model := some "m", amount := 2, balanceAfter := 8 },
                 { kind := .usage, model := some "m", amount := 2, balanceAfter := 6 }] } ∧
    (8 : ℚ) ≠ 10 - 2 - 2 := by
  refine ⟨?_, ?_, ?_, by norm_num⟩ <;>
    norm_num [runDebits, racySchedule, serialSchedule, debitStep, DebitThread.start,
              deduct_credits, initialize_user]

/-- C2 counterexample: with an empty registry and a fresh user, the cost
lookup for the unknown model name `nope` returns 0 — it does not fail with a
ConfigurationError — and the call does write the ledger: the sufficiency
check's balance read materialises the account with the free starting
balance. -/
theorem C2_unknown_model_counterexample :
    get_model_cost [] "nope" = 0 ∧
    (get_llm_response []
        { llmClassName := some "nope", completeChat := some empty_chat, queryType := "chat" }
        hi_response { account := none, txns := [] }).2.account =
      some { balance := 10, totalUsed := 0 } := by
  decide

/-- C2 amended: for a model name absent from the registry the adapter lookup
`create_llm` fails with the `Unknown model` ValueError, but the cost lookup
`get_model_cost` returns 0 instead of failing, and the request does reach the
ledger: the sufficiency check reads the (non-negative) balance and the error
path re-reads it for the 500 response; no debit is applied and no
transaction is appended. -/
theorem C2_unknown_model_amended (reg : Registry) (name : String)
    (chat : CompleteChat) (qt : String) (resp : CanonicalResponse)
    (st : Ledger) (a : Account)
    (hcfg : get_llm_config reg name = none)
    (hacc : st.account = some a)
    (hnn : 0 ≤ a.balance) :
    get_model_cost reg name = 0 ∧
    create_llm reg name = .error ("Unknown model: " ++ name) ∧
    get_llm_response reg
        { llmClassName := some name, completeChat := some chat, queryType := qt }
        resp st =
      (.serverError ("LLM processing error: " ++ ("Unknown model: " ++ name)) a.balance, st) := by
  refine ⟨by simp [get_model_cost, hcfg], by simp [create_llm, hcfg], ?_⟩
  simp [get_llm_response, get_model_cost, create_llm, hcfg,
        has_sufficient_credits, get_balance, hacc, hnn]

/-- Witness for C2: the empty registry does not know `nope`; a user at
balance 5 gets the 500 error with `credit_remaining` 5 and an unchanged
ledger. -/
theorem C2_unknown_model_amended_witness :
    get_llm_config [] "nope" = none ∧
    Ledger.account { account := some { balance := 5, totalUsed := 0 }, txns := [] } =
      some { balance := 5, totalUsed := 0 } ∧
    get_llm_response []
        { llmClassName := some "nope", completeChat := some empty_chat, queryType := "chat" }
        hi_response { account := some { balance := 5, totalUsed := 0 }, txns := [] } =
      (.serverError ("LLM processing error: " ++ ("Unknown model: " ++ "nope"))
          (Account.balance { balance := 5, totalUsed := 0 }),
       { account := some { balance := 5, totalUsed := 0 }, txns := [] }) :=
  ⟨rfl, rfl,
   (C2_unknown_model_amended [] "nope" empty_chat "chat" hi_response
      { account := some { balance := 5, totalUsed := 0 }, txns := [] }
      { balance := 5, totalUsed := 0 } rfl rfl (by norm_num)).2.2⟩

/-- C3: for a billable request against a known model whose configured cost
exceeds the account balance, the handler short-circuits with an HTTP 200
success: the fixed insufficiency message, no function_call,
`credit_remaining` exactly the pre-call balance, and a completely unchanged
ledger — no debit applied, no transaction appended. -/
theorem C3_insufficient_short_circuit (reg : Registry) (name : String)
    (cfg : ModelConfig) (chat : CompleteChat) (qt : String)
    (resp : CanonicalResponse) (st : Ledger) (a : Account)
    (hcfg : get_llm_config reg name = some cfg)
    (hacc : st.account = some a)
    (hlow : a.balance < cfg.cost) :
    get_llm_response reg
        { llmClassName := some name, completeChat := some chat, queryType := qt }
        resp st =
      (.ok insufficient_credit_message none a.balance, st) := by
  have hb : ¬ (cfg.cost ≤ a.balance) := not_le.mpr hlow
  simp [get_llm_response, get_model_cost, hcfg, has_sufficient_credits,
        get_balance, hacc, hb]

/-- Witness for C3: model cost 2, balance 1 (the spec's Scenario B). -/
theorem C3_insufficient_short_circuit_witness :
    get_llm_config sample_registry "m" = some sample_config ∧
    ((1 : ℚ) < sample_config.cost) ∧
    get_llm_response sample_registry
        { llmClassName := some "m", completeChat := some empty_chat, queryType := "chat" }
        hi_response { account := some { balance := 1, totalUsed := 0 }, txns := [] } =
      (.ok insufficient_credit_message none
          (Account.balance { balance := 1, totalUsed := 0 }),
       { account := some { balance := 1, totalUsed := 0 }, txns := [] }) :=
  ⟨rfl, by norm_num [sample_config],
   C3_insufficient_short_circuit sample_registry "m" sample_config empty_chat "chat"
     hi_response { account := some { balance := 1, totalUsed := 0 }, txns := [] }
     { balance := 1, totalUsed := 0 } rfl rfl (by norm_num [sample_config])⟩

/-- C4 counterexample: a request whose query type is no billable type at all
still drives the ledger's debit path — with balance 5 and model cost 2 the
handler debits after the provider call, returns `credit_remaining` 3 rather
than the pre-call 5, and appends a usage transaction. -/
theorem C4_nonbillable_counterexample :
    get_llm_response sample_registry
        { llmClassName := some "m", completeChat := some empty_chat,
          queryType := "definitely_not_billable" }
        hi_response { account := some { balance := 5, totalUsed := 0 }, txns := [] } =
      (.ok "hi" none 3,
       { account := some { balance := 3, totalUsed := 2 },
         txns := [{ kind := .usage, model := some "m", amount := 2, balanceAfter := 3 }] }) ∧
    (3 : ℚ) ≠ 5 := by
  refine ⟨?_, by norm_num⟩
  norm_num [get_llm_response, get_model_cost, get_llm_config, sample_registry, sample_config,
            has_sufficient_credits, get_balance, create_llm, deduct_credits, hi_response]

/-- C4 amended: the handler performs no query-type classification — the query
type has no effect whatsoever on the outcome — and every well-formed request
follows the billable path: for a known model with a resolvable provider and a
sufficient balance, the ledger is debited by the configured cost after the
provider call and `credit_remaining` is the debited balance. -/
theorem C4_query_type_ignored_amended :
    (∀ (reg : Registry) (name : String) (chat : CompleteChat) (q₁ q₂ : String)
        (resp : CanonicalResponse) (st : Ledger),
      get_llm_response reg
          { llmClassName := some name, completeChat := some chat, queryType := q₁ } resp st =
        get_llm_response reg
          { llmClassName := some name, completeChat := some chat, queryType := q₂ } resp st) ∧
    (∀ (reg : Registry) (name : String) (cfg : ModelConfig) (p : Provider)
        (chat : CompleteChat) (qt : String) (resp : CanonicalResponse)
        (st : Ledger) (a : Account),
      get_llm_config reg name = some cfg →
      create_llm reg name = .ok p →
      st.account = some a →
      cfg.cost ≤ a.balance →
      get_llm_response reg
          { llmClassName := some name, completeChat := some chat, queryType := qt } resp st =
        (.ok (resp.message.getD "") resp.functionCall (a.balance - cfg.cost),
         { account := some { balance := a.balance - cfg.cost,
                             totalUsed := a.totalUsed + cfg.cost },
           txns := st.txns ++ [{ kind := .usage, model := some name,
                                 amount := cfg.cost,
                                 balanceAfter := a.balance - cfg.cost }] })) := by
  refine ⟨fun reg name chat q₁ q₂ resp st => rfl, ?_⟩
  intro reg name cfg p chat qt resp st a hcfg hok hacc hge
  simp [get_llm_response, get_model_cost, hcfg, hok, has_sufficient_credits,
        get_balance, hacc, hge, deduct_credits]

/-- Witness for C4: with query type `anything`, balance 5 and cost 2 the
handler debits to 3 and logs the usage transaction. -/
theorem C4_query_type_ignored_amended_witness :
    get_llm_config sample_registry "m" = some sample_config ∧
    create_llm sample_registry "m" = .ok .openai ∧
    (sample_config.cost ≤ (5 : ℚ)) ∧
    get_llm_response sample_registry
        { llmClassName := some "m", completeChat := some empty_chat, queryType := "anything" }
        hi_response { account := some { balance := 5, totalUsed := 0 }, txns := [] } =
      (.ok (hi_response.message.getD "") hi_response.functionCall
          (Account.balance { balance := 5, totalUsed := 0 } - sample_config.cost),
       { account := some { balance := Account.balance { balance := 5, totalUsed := 0 } - sample_config.cost,
                           totalUsed := Account.totalUsed { balance := 5, totalUsed := 0 } + sample_config.cost },
         txns := [] ++ [{ kind := .usage, model := some "m",
                          amount := sample_config.cost,
                          balanceAfter := Account.balance { balance := 5, totalUsed := 0 } - sample_config.cost }] }) :=
  ⟨rfl, rfl, by norm_num [sample_config],
   C4_query_type_ignored_amended.2 sample_registry "m" sample_config .openai empty_chat
     "anything" hi_response { account := some { balance := 5, totalUsed := 0 }, txns := [] }
     { balance := 5, totalUsed := 0 } rfl rfl rfl (by norm_num [sample_config])⟩

/-- C5: every adapter's `llm_response` catches any exception raised inside
its provider-invocation `try` block and returns a successful canonical
response — the provider-labelled error string as `message`, `function_call`
absent — instead of propagating the fault (each embedded `llm_response` is a
total function into `CanonicalResponse`). -/
theorem C5_adapter_failure_policy (detail : String) :
    openai_llm_response (.exn detail) =
      { message := some ("OpenAI Error: " ++ detail), functionCall := none } ∧
    anthropic_llm_response (.exn detail) =
      { message := some ("Claude Error: " ++ detail), functionCall := none } ∧
    grok_llm_response (.exn detail) =
      { message := some ("Grok Error: " ++ detail), functionCall := none } ∧
    deepseek_llm_response (.exn detail) =
      { message := some ("DeepSeek Error: " ++ detail), functionCall := none } ∧
    gemini_llm_response (.exn detail) =
      { message := some ("Gemini Critical Error: " ++ detail), functionCall := none } :=
  ⟨rfl, rfl, rfl, rfl, rfl⟩

/-- C6: instruction state leaks across calls on the cached Gemini adapter —
after one routed call supplying instruction `X`, a second call through the
same cached instance supplying no instruction still sends `X` as the
provider's system_instruction, and `X` stays stored on the instance. -/
theorem C6_instruction_leak :
    process_request_instruction (process_request_instruction none (some "X")).2 none =
      (some "X", some "X") :=
  rfl

/-- C7 counterexample: the Gemini adapter falsifies the round-trip claim at
the spec's own input — its history translation drops the canonical
`function_call` entry (the entry carries no role key and fails the role
check before the type dispatch), so translating the get_weather call into
Gemini's wire format and parsing the matching response yields no function
call, hence neither the name nor the call id comes back. -/
theorem C7_round_trip_counterexample :
    gemini_round_trip weather_msg = none ∧
    gemini_process_history [weather_msg] = [] := by
  decide

/-- C7 amended: for the spec's canonical get_weather function call, the
OpenAI, Grok, DeepSeek and Anthropic round trips preserve the function name
and call id and decode the arguments to the same structured map; the Gemini
history translation drops the roleless function_call entry, so the Gemini
round trip yields no function call at all. -/
theorem C7_round_trip_amended :
    openai_round_trip weather_msg =
      some { name := "get_weather", arguments := [("location", "NYC")],
             callId := some "call_123" } ∧
    grok_round_trip weather_msg =
      some { name := "get_weather", arguments := [("location", "NYC")],
             callId := some "call_123" } ∧
    deepseek_round_trip weather_msg =
      some { name := "get_weather", arguments := [("location", "NYC")],
             callId := some "call_123" } ∧
    anthropic_round_trip weather_msg =
      some { name := "get_weather", arguments := [("location", "NYC")],
             callId := some "call_123" } ∧
    gemini_round_trip weather_msg = none := by
  decide

/-- C8 counterexample: the OpenAI and Anthropic adapters perform no vision
check — for a model configuration without the vision capability and one
supplied image, both attach the image payload to the provider message
sequence. -/
theorem C8_vision_gating_counterexample :
    sample_config.vision = false ∧
    openai_build_messages sample_config image_chat =
      [OAIMsg.userParts [OAIPart.imageUrl "data:image/png;base64,abc"]] ∧
    anthropic_build_messages image_chat =
      some [{ role := "user", content := [ACBlock.image "abc"] }] := by
  decide

/-- C8 amended: only the Grok adapter conditions image attachment on the
vision capability — with vision undeclared its provider message sequence
carries no image payloads — while the OpenAI and Anthropic adapters attach
the supplied images whenever `img_data` is non-empty, regardless of the
vision flag. -/
theorem C8_vision_gating_amended :
    (∀ (cfg : ModelConfig) (chat : CompleteChat), cfg.vision = false →
      oai_has_image (grok_build_messages cfg chat) = false) ∧
    (∀ (cfg : ModelConfig) (chat : CompleteChat), chat.imgData ≠ [] →
      oai_has_image (openai_build_messages cfg chat) = true) ∧
    (∀ (chat : CompleteChat) (ms : List ACMsg), chat.imgData ≠ [] →
      anthropic_build_messages chat = some ms →
      ac_has_image ms = true) := by
  refine ⟨?_, ?_, ?_⟩
  · intro cfg chat hvis
    have hh := grok_history_no_image chat.conversationHistory
    simp only [oai_has_image] at hh
    cases hinstr : chat.instruction <;>
      simp [grok_build_messages, hvis, oai_has_image, List.any_append, hinstr,
            oai_msg_has_image, hh]
  · intro cfg chat himg
    cases hdata : chat.imgData with
    | nil => exact absurd hdata himg
    | cons b bs =>
      cases hinstr : chat.instruction <;>
        simp [openai_build_messages, oai_has_image, List.any_append, hinstr, hdata,
              oai_msg_has_image, OAIPart.isImage]
  · intro chat ms himg hbuild
    cases hhist : anthropic_process_history chat.conversationHistory with
    | none => simp [anthropic_build_messages, hhist] at hbuild
    | some hs =>
      simp only [anthropic_build_messages, hhist, Option.bind_eq_bind,
                 Option.some_bind, Option.some.injEq, pure] at hbuild
      subst hbuild
      cases hdata : chat.imgData with
      | nil => exact absurd hdata himg
      | cons b bs =>
        simp [ac_has_image, List.any_append, hdata, ac_msg_has_image]

/-- Witness for C8: with the vision-less sample configuration and one image,
Grok attaches nothing while OpenAI and Anthropic both attach the image. -/
theorem C8_vision_gating_amended_witness :
    sample_config.vision = false ∧
    image_chat.imgData ≠ [] ∧
    oai_has_image (grok_build_messages sample_config image_chat) = false ∧
    oai_has_image (openai_build_messages sample_config image_chat) = true ∧
    ac_has_image [{ role := "user", content := [ACBlock.image "abc"] }] = true :=
  ⟨rfl, by decide,
   C8_vision_gating_amended.1 sample_config image_chat rfl,
   C8_vision_gating_amended.2.1 sample_config image_chat (by decide),
   C8_vision_gating_amended.2.2 image_chat _ (by decide) rfl⟩

/-- C9 counterexample: the recharge amount -5 parses as a float, passes the
handler's validation, and is applied: the stored balance falls from 10 to 5
while the call reports success — so a recharge can decrease the balance and a
negative amount is not rejected. -/
theorem C9_negative_recharge_counterexample :
    recharge_user_credit (.value (-5))
        { account := some { balance := 10, totalUsed := 0 }, txns := [] } =
      (.success 5,
       { account := some { balance := 5, totalUsed := 0 },
         txns := [{ kind := .creditAdded, model := none, amount := -5,
                    balanceAfter := 5 }] }) ∧
    (5 : ℚ) < 10 := by
  refine ⟨?_, by norm_num⟩
  norm_num [recharge_user_credit, add_credits]

/-- C9 amended: the recharge amount must parse as a number — a missing or
unparseable value fails with a validation error and leaves the ledger
untouched — but its sign is never checked: any parsed amount, negative
included, is added to the balance and logged as a credit_added transaction,
so a negative recharge decreases the stored balance. -/
theorem C9_recharge_validation_amended :
    (∀ st : Ledger, recharge_user_credit .missing st =
      (.badRequest "Missing lexi_credits_added parameter", st)) ∧
    (∀ st : Ledger, recharge_user_credit .unparseable st =
      (.badRequest "Invalid value for lexi_credits_added", st)) ∧
    (∀ (st : Ledger) (a : Account) (q : ℚ), st.account = some a →
      recharge_user_credit (.value q) st =
        (.success (a.balance + q),
         { account := some { balance := a.balance + q, totalUsed := a.totalUsed },
           txns := st.txns ++ [{ kind := .creditAdded, model := none,
                                 amount := q, balanceAfter := a.balance + q }] })) := by
  refine ⟨fun st => rfl, fun st => rfl, fun st a q hacc => ?_⟩
  simp [recharge_user_credit, add_credits, hacc]

/-- Witness for C9 at balance 10, amount -5. -/
theorem C9_recharge_validation_amended_witness :
    Ledger.account { account := some { balance := 10, totalUsed := 0 }, txns := [] } =
      some { balance := 10, totalUsed := 0 } ∧
    recharge_user_credit (.value (-5))
        { account := some { balance := 10, totalUsed := 0 }, txns := [] } =
      (.success (Account.balance { balance := 10, totalUsed := 0 } + (-5)),
       { account := some { balance := Account.balance { balance := 10, totalUsed := 0 } + (-5),
                           totalUsed := Account.totalUsed { balance := 10, totalUsed := 0 } },
         txns := [] ++ [{ kind := .creditAdded, model := none, amount := -5,
                          balanceAfter := Account.balance { balance := 10, totalUsed := 0 } + (-5) }] }) :=
  ⟨rfl,
   C9_recharge_validation_amended.2.2
     { account := some { balance := 10, totalUsed := 0 }, txns := [] }
     { balance := 10, totalUsed := 0 } (-5) rfl⟩

/-- C10: `deduct_credits` applies unconditionally — it never re-checks
sufficiency and never raises on an overdraft: it sets the new balance to the
previously read balance minus the amount (initialising the account with the
free starting balance first when the document is absent) and appends exactly
one usage transaction, so a debit whose amount exceeds the balance leaves the
stored balance negative. -/
theorem C10_deduct_unconditional (st : Ledger) (amount : ℚ) (model : String) :
    (∀ a : Account, st.account = some a →
      deduct_credits st amount model =
        (a.balance - amount,
         { account := some { balance := a.balance - amount,
                             totalUsed := a.totalUsed + amount },
           txns := st.txns ++ [{ kind := .usage, model := some model,
                                 amount := amount,
                                 balanceAfter := a.balance - amount }] })) ∧
    (st.account = none →
      deduct_credits st amount model =
        (free_credits - amount,
         { account := some { balance := free_credits - amount,
                             totalUsed := amount },
           txns := st.txns ++ [{ kind := .usage, model := some model,
                                 amount := amount,
                                 balanceAfter := free_credits - amount }] })) ∧
    (∀ a : Account, st.account = some a → a.balance < amount →
      (deduct_credits st amount model).1 < 0) := by
  refine ⟨fun a hacc => ?_, fun hnone => ?_, fun a hacc hover => ?_⟩
  · simp [deduct_credits, hacc]
  · simp [deduct_credits, hnone, initialize_user]
  · simp [deduct_credits, hacc, sub_neg, hover]

/-- Witness for C10 at balance 1, amount 5: the debit goes through and the
stored balance turns negative. -/
theorem C10_deduct_unconditional_witness :
    Ledger.account { account := some { balance := 1, totalUsed := 0 }, txns := [] } =
      some { balance := 1, totalUsed := 0 } ∧
    ((1 : ℚ) < 5) ∧
    (deduct_credits { account := some { balance := 1, totalUsed := 0 }, txns := [] }
        5 "m").1 < 0 :=
  ⟨rfl, by norm_num,
   (C10_deduct_unconditional { account := some { balance := 1, totalUsed := 0 }, txns := [] }
      5 "m").2.2 { balance := 1, totalUsed := 0 } rfl (by norm_num)⟩

end AppleLaidG
